import Mathlib

/-!
Verification of the Session & Token Lifecycle subsystem of the SaleAway
mobile client (Expo/React-Native + Redux Toolkit).

Shallow embedding notes:
* A stored compact signed token (JWT) is embedded as a `Tok`: its raw
  string together with the result of the platform decode pipeline
  (`split(".")`, `atob` of the middle segment, `JSON.parse`), which is a
  fixed function of the string; `payload = none` models a decode that
  throws (malformed structure / non-JSON payload).
* The secure store (expo-secure-store / AsyncStorage) is a record with one
  field per key used by the code: `cognito_access_token`,
  `cognito_id_token`, `cognito_refresh_token`, `code_verifier`.
* Async thunks become functions from the store (plus the response of the
  environment, supplied as an argument) to the updated store and a typed
  fulfilled/rejected outcome, following the sequential control
  flow of the source; storage-medium failures are out of scope.
* Redux reducers become a pure step function `UserState → Action → UserState`
  mirroring the `extraReducers` cases of each slice.
* JavaScript truthiness on strings (`if (!x)`) is modelled explicitly:
  `null`/`undefined`/empty string are falsy.
-/

/-- Claims carried by a decoded id-token payload, as the source reads them:
`exp` (seconds since epoch, may be absent), `sub`, the provider-specific
username claim `cognito:username` (may be absent), and `email`. -/
structure Payload where
  exp : Option Nat
  sub : String
  cognitoUsername : Option String
  email : String
deriving DecidableEq, Repr

/-- Compact signed token: the opaque raw string plus what the fixed decode
pipeline (`token.split(".")`; `atob` on segment 1; `JSON.parse`) yields for
it; `none` when that pipeline throws. -/
structure Tok where
  raw : String
  payload : Option Payload
deriving DecidableEq, Repr

/-- Secure store contents for the four keys the auth code uses. -/
structure Store where
  accessToken : Option String
  idToken : Option Tok
  refreshToken : Option String
  codeVerifier : Option String
deriving DecidableEq, Repr

/-- JavaScript truthiness of a possibly-absent string: `null`, `undefined`
and the empty string are falsy. -/
def truthyStr : Option String → Bool
  | none => false
  | some s => s ≠ ""

/-- JavaScript `x || 0` on a possibly-absent numeric claim
(`idTokenPayload.exp || 0`). -/
def jsOr0 : Option Nat → Nat
  | none => 0
  | some e => e

/-- JavaScript `x || d` on a possibly-absent string (also replaces the
empty string by the default, as `||` does). -/
def jsOrStr : Option String → String → String
  | none, d => d
  | some s, d => if s = "" then d else s

/-- Identity derived from an id-token payload, as built by the thunks:
`username: payload["cognito:username"] || payload.sub`, `email`, `sub`. -/
structure UserInfo where
  username : String
  email : String
  sub : String
deriving DecidableEq, Repr

def userFromPayload (p : Payload) : UserInfo :=
  { username := jsOrStr p.cognitoUsername p.sub
    email := p.email
    sub := p.sub }

/-- Token triple as returned in thunk payloads (fields may be `null` /
`undefined` in the source, hence `Option`). -/
structure Tokens where
  accessToken : Option String
  idToken : Option String
  refreshToken : Option String
deriving DecidableEq, Repr

/-- One scheduler tick of `TokenRefreshManager.checkAndRefreshToken`
(src/unnamed/part_000, lines 274-308), returning how many times it
dispatches `refreshToken()` (each dispatch is one renewal attempt, hence
one network token exchange by the thunk). Control flow, in source order:
read the stored id token (`if (!idToken) return`); decode it (a decode
throw is caught by the surrounding `try`/`catch` and logged, no dispatch);
`expiresAt = payload.exp || 0`; `timeUntilExpiry = expiresAt - currentTime`
(signed); if `timeUntilExpiry < 60` read the refresh token and dispatch
`refreshToken()` only when that value is truthy. -/
def checkAndRefreshToken (store : Store) (now : Nat) : Nat :=
  match store.idToken with
  | none => 0
  | some t =>
    if t.raw = "" then 0
    else
      match t.payload with
      | none => 0
      | some p =>
        let expiresAt := jsOr0 p.exp
        let timeUntilExpiry : Int := (expiresAt : Int) - (now : Int)
        if timeUntilExpiry < 60 then
          if truthyStr store.refreshToken then 1 else 0
        else 0

/-- Two scheduler ticks fired while the `refreshToken()` dispatched by the
first has not yet resolved. Before resolving, the refresh thunk performs no
storage writes (its `setItem`/`deleteItem` calls all come after the network
call settles) and `checkAndRefreshToken` consults no in-flight flag or
Redux state — it only reads storage — so the second tick observes the same
store. The result is the total number of `refreshToken()` dispatches
(network token exchanges) across both ticks. -/
def ticksWhileUnresolved (store : Store) (now1 now2 : Nat) : Nat :=
  checkAndRefreshToken store now1 + checkAndRefreshToken store now2

/-- Outcome of the `fetch` to the identity provider made by the refresh
thunk (src/unnamed/part_004): the promise rejects (`networkError`, carrying
the message of the platform exception), the response is not ok (`httpError`,
carrying `errorData.__type || errorData.message || "Token refresh failed"`
as thrown by the source), or ok with `AuthenticationResult.AccessToken` and
`AuthenticationResult.IdToken`. -/
inductive RefreshResp
  | networkError (msg : String)
  | httpError (msg : String)
  | ok (accessToken : String) (idToken : Tok)
deriving DecidableEq, Repr

/-- Message of the exception thrown by the platform decode pipeline
(`atob`/`JSON.parse`) on a malformed token; its exact text is
environment-determined and never inspected by the code. -/
def decodeFailureMessage : String := "malformed token"

/-- Typed thunk outcome: Redux Toolkit `fulfilled` with the returned
payload, or `rejected` with the `rejectWithValue` message. -/
inductive ThunkOutcome (α : Type)
  | fulfilled (payload : α)
  | rejected (msg : String)
deriving DecidableEq, Repr

/-- Deletion of the three token keys, as done by the `catch` block of the
refresh thunk and by the expired-with-refresh branch of `checkAuthStatus`. -/
def clearAllTokens (s : Store) : Store :=
  { s with accessToken := none, idToken := none, refreshToken := none }

/-- The `refreshToken` thunk of src/unnamed/part_004 (lines 258-335), the
silent renewal `renew()`. Control flow, in source order: read the stored
refresh token; if falsy, throw `"No refresh token available"`; otherwise
perform the `REFRESH_TOKEN_AUTH` exchange; on a non-ok response throw the
typed error, on a network failure the fetch rejection propagates; on
success extract the new access and id tokens, decode the id token (a
decode throw is caught like any other), store the new access and id tokens
(the refresh token is not reissued and is kept), and fulfil with the
derived user and the token triple (refresh = the value read at the start).
The `catch` block deletes ALL THREE stored token keys before rejecting. -/
def refreshTokenThunk (store : Store) (resp : RefreshResp) :
    Store × ThunkOutcome (UserInfo × Tokens) :=
  if truthyStr store.refreshToken = false then
    (clearAllTokens store, .rejected "No refresh token available")
  else
    match resp with
    | .networkError msg => (clearAllTokens store, .rejected msg)
    | .httpError msg => (clearAllTokens store, .rejected msg)
    | .ok access idTok =>
      match idTok.payload with
      | none => (clearAllTokens store, .rejected decodeFailureMessage)
      | some p =>
        ({ store with accessToken := some access, idToken := some idTok },
         .fulfilled (userFromPayload p,
           { accessToken := some access
             idToken := some idTok.raw
             refreshToken := store.refreshToken }))

/-- Redux state of the user slice (both variants share this shape). -/
structure UserState where
  isAuthenticated : Bool
  isLoading : Bool
  user : Option UserInfo
  tokens : Option Tokens
  error : Option String
deriving DecidableEq, Repr

def initialState : UserState :=
  { isAuthenticated := false, isLoading := false, user := none
    tokens := none, error := none }

/-- Actions handled by the src/unnamed/part_004 slice (all of its
`extraReducers` cases plus `clearError`). `rejected` actions carry the
possibly-absent `action.payload`. -/
inductive Action4
  | signUpPending | signUpFulfilled | signUpRejected (m : Option String)
  | confirmSignUpPending | confirmSignUpFulfilled
  | confirmSignUpRejected (m : Option String)
  | signInPending | signInFulfilled (u : UserInfo) (t : Tokens)
  | signInRejected (m : Option String)
  | signOutPending | signOutFulfilled | signOutRejected (m : Option String)
  | refreshPending | refreshFulfilled (u : UserInfo) (t : Tokens)
  | refreshRejected (m : Option String)
  | checkAuthPending | checkAuthFulfilled (p : Option (UserInfo × Tokens))
  | checkAuthRejected (m : Option String)
  | getAuthTokenFulfilled
  | clearError
deriving DecidableEq, Repr

/-- Reducer of the src/unnamed/part_004 slice (lines 415-542), case by
case after its `extraReducers`. -/
def userReducer4 (s : UserState) : Action4 → UserState
  | .signUpPending => { s with isLoading := true, error := none }
  | .signUpFulfilled => { s with isLoading := false, error := none }
  | .signUpRejected m =>
    { s with isLoading := false, error := some (jsOrStr m "Sign up failed") }
  | .confirmSignUpPending => { s with isLoading := true, error := none }
  | .confirmSignUpFulfilled => { s with isLoading := false, error := none }
  | .confirmSignUpRejected m =>
    { s with isLoading := false, error := some (jsOrStr m "Confirmation failed") }
  | .signInPending => { s with isLoading := true, error := none }
  | .signInFulfilled u t =>
    { s with isLoading := false, isAuthenticated := true, user := some u
             tokens := some t, error := none }
  | .signInRejected m =>
    { s with isLoading := false, isAuthenticated := false
             error := some (jsOrStr m "Sign in failed") }
  | .signOutPending => { s with isLoading := true }
  | .signOutFulfilled =>
    { s with isLoading := false, isAuthenticated := false, user := none
             tokens := none, error := none }
  | .signOutRejected m =>
    { s with isLoading := false, error := some (jsOrStr m "Sign out failed") }
  | .refreshPending => { s with isLoading := true, error := none }
  | .refreshFulfilled u t =>
    { s with isLoading := false, isAuthenticated := true, user := some u
             tokens := some t, error := none }
  | .refreshRejected m =>
    { s with isLoading := false, isAuthenticated := false, user := none
             tokens := none, error := some (jsOrStr m "Token refresh failed") }
  | .checkAuthPending => { s with isLoading := true }
  | .checkAuthFulfilled p =>
    match p with
    | some (u, t) =>
      { s with isLoading := false, isAuthenticated := true, user := some u
               tokens := some t, error := none }
    | none =>
      { s with isLoading := false, isAuthenticated := false, user := none
               tokens := none, error := none }
  | .checkAuthRejected m =>
    { s with isLoading := false, isAuthenticated := false
             error := some (jsOrStr m "Failed to check auth status") }
  | .getAuthTokenFulfilled => s
  | .clearError => { s with error := none }

/-- Alphabet used by `generateRandomString` in userSlice.ts (line 24): the
62 alphanumeric characters, a subset of the RFC 3986 unreserved set. -/
def possible : String :=
  "ABCDEFGHIJKLMNOPQRSTUVWXYZabcdefghijklmnopqrstuvwxyz0123456789"

/-- The PKCE verifier generator `generateRandomString` of userSlice.ts
(lines 23-30): `length` iterations of
`text += possible.charAt(Math.floor(Math.random() * possible.length))`.
The successive values of `Math.floor(Math.random() * 62)` — each a natural
number below 62 since `Math.random()` lies in `[0, 1)` — are supplied as
the `draws` argument. -/
def generateRandomString (draws : Nat → Fin 62) (length : Nat) : String :=
  String.mk ((List.range length).map (fun i => possible.toList.getD (draws i) 'A'))

/-- Word size for the 32-bit arithmetic of SHA-256 (2 to the 32). -/
def w32 : Nat := 4294967296

/-- Rotate a 32-bit word right by `n`. -/
def rotr32 (n x : Nat) : Nat := (x >>> n) ||| ((x <<< (32 - n)) % w32)

def bigSigma0 (x : Nat) : Nat := rotr32 2 x ^^^ rotr32 13 x ^^^ rotr32 22 x

def bigSigma1 (x : Nat) : Nat := rotr32 6 x ^^^ rotr32 11 x ^^^ rotr32 25 x

def smallSigma0 (x : Nat) : Nat := rotr32 7 x ^^^ rotr32 18 x ^^^ (x >>> 3)

def smallSigma1 (x : Nat) : Nat := rotr32 17 x ^^^ rotr32 19 x ^^^ (x >>> 10)

def chWord (x y z : Nat) : Nat := (x &&& y) ^^^ ((x ^^^ (w32 - 1)) &&& z)

def majWord (x y z : Nat) : Nat := (x &&& y) ^^^ (x &&& z) ^^^ (y &&& z)

/-- Round constants of FIPS 180-4 SHA-256, packed eight words to a
256-bit literal, most significant word first. -/
def sha256KPacked : List Nat :=
  [0x428a2f9871374491b5c0fbcfe9b5dba53956c25b59f111f1923f82a4ab1c5ed5,
   0xd807aa9812835b01243185be550c7dc372be5d7480deb1fe9bdc06a7c19bf174,
   0xe49b69c1efbe47860fc19dc6240ca1cc2de92c6f4a7484aa5cb0a9dc76f988da,
   0x983e5152a831c66db00327c8bf597fc7c6e00bf3d5a7914706ca635114292967,
   0x27b70a852e1b21384d2c6dfc53380d13650a7354766a0abb81c2c92e92722c85,
   0xa2bfe8a1a81a664bc24b8b70c76c51a3d192e819d6990624f40e3585106aa070,
   0x19a4c1161e376c082748774c34b0bcb5391c0cb34ed8aa4a5b9cca4f682e6ff3,
   0x748f82ee78a5636f84c878148cc7020890befffaa4506cebbef9a3f7c67178f2]

/-- Extraction of the eight 32-bit words of one packed 256-bit value,
most significant first. -/
def unpack8 (v : Nat) : List Nat :=
  (List.range 8).map (fun i => (v >>> (32 * (7 - i))) % w32)

/-- The 64 round constants of FIPS 180-4 SHA-256. -/
def sha256K : List Nat := (sha256KPacked.map unpack8).flatten

/-- UTF-8 encoding of one code point, as `TextEncoder.encode` performs it
byte by byte. -/
def utf8Encode (c : Nat) : List Nat :=
  if c < 0x80 then [c]
  else if c < 0x800 then [0xC0 + c / 0x40, 0x80 + c % 0x40]
  else if c < 0x10000 then [0xE0 + c / 0x1000, 0x80 + (c / 0x40) % 0x40, 0x80 + c % 0x40]
  else [0xF0 + c / 0x40000, 0x80 + (c / 0x1000) % 0x40, 0x80 + (c / 0x40) % 0x40, 0x80 + c % 0x40]

/-- Byte sequence of a string under `TextEncoder` (UTF-8), the `data` fed
to `crypto.subtle.digest` by `sha256` in userSlice.ts (lines 32-36). -/
def utf8Bytes (s : String) : List Nat :=
  (s.toList.map (fun ch => utf8Encode ch.toNat)).flatten

/-- Big-endian byte decomposition of `n` into `count` bytes. -/
def beBytes (n : Nat) (count : Nat) : List Nat :=
  (List.range count).map (fun i => (n >>> (8 * (count - 1 - i))) % 256)

/-- FIPS 180-4 message padding: append `0x80`, zeros to 56 mod 64, then
the 64-bit big-endian bit length. -/
def sha256Pad (msg : List Nat) : List Nat :=
  let k := (64 + 56 - ((msg.length + 1) % 64)) % 64
  msg ++ [0x80] ++ List.replicate k 0 ++ beBytes (8 * msg.length) 8

def chunksGo : List Nat → List Nat → List (List Nat)
  | [], acc => if acc.isEmpty then [] else [acc.reverse]
  | x :: xs, acc =>
    if acc.length = 63 then (x :: acc).reverse :: chunksGo xs []
    else chunksGo xs (x :: acc)

/-- Split a byte list into 64-byte blocks. -/
def chunks64 (l : List Nat) : List (List Nat) := chunksGo l []

/-- Group bytes into big-endian 32-bit words. -/
def toWords : List Nat → List Nat
  | b0 :: b1 :: b2 :: b3 :: rest =>
    (b0 * 0x1000000 + b1 * 0x10000 + b2 * 0x100 + b3) :: toWords rest
  | _ => []

def scheduleStep (acc : List Nat) : List Nat :=
  acc ++ [(smallSigma1 (acc.getD (acc.length - 2) 0) + acc.getD (acc.length - 7) 0 +
           smallSigma0 (acc.getD (acc.length - 15) 0) + acc.getD (acc.length - 16) 0) % w32]

/-- Extend the 16 block words to the 64-entry message schedule. -/
def messageSchedule (block : List Nat) : List Nat :=
  (List.range 48).foldl (fun acc _ => scheduleStep acc) block

/-- Working state of the SHA-256 compression function. -/
structure Hash8 where
  a : Nat
  b : Nat
  c : Nat
  d : Nat
  e : Nat
  f : Nat
  g : Nat
  h : Nat
deriving DecidableEq, Repr

def compressStep (st : Hash8) (kw : Nat × Nat) : Hash8 :=
  let t1 := (st.h + bigSigma1 st.e + chWord st.e st.f st.g + kw.1 + kw.2) % w32
  let t2 := (bigSigma0 st.a + majWord st.a st.b st.c) % w32
  { a := (t1 + t2) % w32, b := st.a, c := st.b, d := st.c
    e := (st.d + t1) % w32, f := st.e, g := st.f, h := st.g }

def compressBlock (h0 : Hash8) (block : List Nat) : Hash8 :=
  let ws := messageSchedule block
  let st := (sha256K.zip ws).foldl compressStep h0
  { a := (h0.a + st.a) % w32, b := (h0.b + st.b) % w32, c := (h0.c + st.c) % w32
    d := (h0.d + st.d) % w32, e := (h0.e + st.e) % w32, f := (h0.f + st.f) % w32
    g := (h0.g + st.g) % w32, h := (h0.h + st.h) % w32 }

/-- Initial hash value of FIPS 180-4 SHA-256, packed into one 256-bit
literal, most significant word first. -/
def sha256InitPacked : Nat :=
  0x6a09e667bb67ae853c6ef372a54ff53a510e527f9b05688c1f83d9ab5be0cd19

def initWord (j : Nat) : Nat := (sha256InitPacked >>> (32 * (7 - j))) % w32

def sha256Init : Hash8 :=
  ⟨initWord 0, initWord 1, initWord 2, initWord 3,
   initWord 4, initWord 5, initWord 6, initWord 7⟩

/-- SHA-256 digest of the UTF-8 bytes of a string, as the `sha256` helper
of userSlice.ts (lines 32-36) computes via `crypto.subtle.digest`
(validated against the FIPS and RFC 7636 test vectors). -/
def sha256 (s : String) : List Nat :=
  let blocks := (chunks64 (sha256Pad (utf8Bytes s))).map toWords
  let hf := blocks.foldl compressBlock sha256Init
  ([hf.a, hf.b, hf.c, hf.d, hf.e, hf.f, hf.g, hf.h].map (fun x => beBytes x 4)).flatten

/-- Standard base64 alphabet indexed by 6-bit value, as `btoa` uses. -/
def base64Chars : List Char :=
  "ABCDEFGHIJKLMNOPQRSTUVWXYZabcdefghijklmnopqrstuvwxyz0123456789+/".toList

def base64Char (n : Nat) : Char := base64Chars.getD n 'A'

/-- Base64 encoding with `=` padding of a byte list, three bytes to four
characters (the `btoa(String.fromCharCode(...))` step of
`base64URLEncode`). -/
def base64Core : List Nat → List Char
  | [] => []
  | [b1] => [base64Char (b1 / 4), base64Char (b1 % 4 * 16), '=', '=']
  | [b1, b2] =>
    [base64Char (b1 / 4), base64Char (b1 % 4 * 16 + b2 / 16), base64Char (b2 % 16 * 4), '=']
  | b1 :: b2 :: b3 :: rest =>
    base64Char (b1 / 4) :: base64Char (b1 % 4 * 16 + b2 / 16) ::
    base64Char (b2 % 16 * 4 + b3 / 64) :: base64Char (b3 % 64) :: base64Core rest

/-- Character substitution of `base64URLEncode`: `+` to `-` and `/` to `_`. -/
def urlSafeChar (c : Char) : Char := if c = '+' then '-' else if c = '/' then '_' else c

/-- The `base64URLEncode` helper of userSlice.ts (lines 38-43):
`btoa` of the bytes, then replacing each plus with a minus, each slash
with an underscore, and deleting every equals sign. -/
def base64URLEncode (bytes : List Nat) : String :=
  String.mk (((base64Core bytes).map urlSafeChar).filter (fun c => c != '='))

/-- The `generateCodeChallenge` helper of userSlice.ts (lines 45-48):
URL-safe base64, padding stripped, of the SHA-256 digest of the verifier. -/
def generateCodeChallenge (verifier : String) : String :=
  base64URLEncode (sha256 verifier)

/-- URL-safe base64 alphabet (no `+`, `/` or `=`). -/
def base64UrlAlphabet : List Char :=
  "ABCDEFGHIJKLMNOPQRSTUVWXYZabcdefghijklmnopqrstuvwxyz0123456789-_".toList

/-- Result of `WebBrowser.openAuthSessionAsync` as the `signIn` thunk of
userSlice.ts tests it: `successUrl` means `result.type === "success"` with
a truthy `result.url`, carrying `url.searchParams.get("code")` (absent
when there is no `code` parameter); `cancelled` covers every other result
(user cancel/dismiss, or a success without a url). -/
inductive BrowserResult
  | successUrl (code : Option String)
  | cancelled
deriving DecidableEq, Repr

/-- Outcome of the `fetch` to the `/oauth2/token` endpoint in `signIn`:
rejection (`networkError` with the platform message), non-ok response
(`httpError` carrying the possibly-absent `error_description` of the body), or
ok with `access_token`, `id_token` and a possibly-absent `refresh_token`. -/
inductive TokenResp
  | networkError (msg : String)
  | httpError (errorDescription : Option String)
  | ok (accessToken : String) (idToken : Tok) (refreshToken : Option String)
deriving DecidableEq, Repr

/-- The interactive `signIn` thunk of
src/SaleAwayExpo/state/slices/userSlice.ts (lines 216-312), PKCE flow.
Control flow, in source order: generate a 128-character code verifier and
its challenge (the verifier value is supplied here as an argument since its
draw is random); WRITE the verifier to the store under `code_verifier`;
build the authorization URL and open the browser. On anything but a
success-with-url result, throw `"Authentication cancelled or failed"`
(note: the stored verifier is NOT deleted on this path). On success:
extract `code` (falsy → throw `"No authorization code received"`); read the
verifier back from the store (falsy → throw `"Code verifier not found"`);
exchange code+verifier at the token endpoint (non-ok → throw
`errorData.error_description || "Failed to exchange code for tokens"`);
decode the id token; store the access and id tokens and, when truthy, the
refresh token (the verifier is again NOT deleted); fulfil with the derived
user and token triple. Every throw is caught and becomes a rejection with
the message of the error. -/
def signInThunk (store : Store) (codeVerifier : String)
    (browser : BrowserResult) (resp : TokenResp) :
    Store × ThunkOutcome (UserInfo × Tokens) :=
  let store1 := { store with codeVerifier := some codeVerifier }
  match browser with
  | .cancelled => (store1, .rejected "Authentication cancelled or failed")
  | .successUrl codeOpt =>
    if truthyStr codeOpt = false then
      (store1, .rejected "No authorization code received")
    else if codeVerifier = "" then
      (store1, .rejected "Code verifier not found")
    else
      match resp with
      | .networkError msg => (store1, .rejected msg)
      | .httpError descr =>
        (store1, .rejected (jsOrStr descr "Failed to exchange code for tokens"))
      | .ok access idTok refreshOpt =>
        match idTok.payload with
        | none => (store1, .rejected decodeFailureMessage)
        | some p =>
          let store2 :=
            { store1 with accessToken := some access, idToken := some idTok }
          let store3 :=
            if truthyStr refreshOpt then { store2 with refreshToken := refreshOpt }
            else store2
          (store3, .fulfilled (userFromPayload p,
            { accessToken := some access
              idToken := some idTok.raw
              refreshToken := refreshOpt }))

/-- The `signOut` thunk of userSlice.ts (lines 314-327): deletes the three
token keys and the stored code verifier. -/
def signOutThunk (_store : Store) : Store × ThunkOutcome Unit :=
  ({ accessToken := none, idToken := none, refreshToken := none
     codeVerifier := none }, .fulfilled ())

/-- The `checkAuthStatus` thunk of userSlice.ts (lines 329-385), startup
reconstitution. Control flow, in source order: read the stored id token
(falsy → fulfil with `null`); decode it (a throw is caught and rejected);
the token counts as expired iff `idTokenPayload.exp && idTokenPayload.exp <
currentTime` — i.e. iff `exp` is present, nonzero and strictly below `now`.
If expired: with a truthy stored refresh token, delete all three token keys
(the refresh path is an unimplemented TODO) and fulfil `null`; otherwise
delete the access and id keys and fulfil `null`. If not expired: read the
access token and fulfil the restored user and token triple, leaving the
store untouched. -/
def checkAuthStatusThunk (store : Store) (now : Nat) :
    Store × ThunkOutcome (Option (UserInfo × Tokens)) :=
  match store.idToken with
  | none => (store, .fulfilled none)
  | some t =>
    if t.raw = "" then (store, .fulfilled none)
    else
      match t.payload with
      | none => (store, .rejected decodeFailureMessage)
      | some p =>
        let expired : Bool :=
          match p.exp with
          | none => false
          | some e => if e = 0 then false else decide (e < now)
        if expired then
          if truthyStr store.refreshToken then
            (clearAllTokens store, .fulfilled none)
          else
            ({ store with accessToken := none, idToken := none },
             .fulfilled none)
        else
          (store, .fulfilled (some (userFromPayload p,
            { accessToken := store.accessToken
              idToken := some t.raw
              refreshToken := store.refreshToken })))

/-- Actions handled by the userSlice.ts slice (all of its `extraReducers`
cases plus `clearError`); this slice has no refresh-token cases. -/
inductive ActionU
  | signUpPending | signUpFulfilled | signUpRejected (m : Option String)
  | confirmSignUpPending | confirmSignUpFulfilled
  | confirmSignUpRejected (m : Option String)
  | signInPending | signInFulfilled (u : UserInfo) (t : Tokens)
  | signInRejected (m : Option String)
  | signOutPending | signOutFulfilled | signOutRejected (m : Option String)
  | checkAuthPending | checkAuthFulfilled (p : Option (UserInfo × Tokens))
  | checkAuthRejected (m : Option String)
  | getAuthTokenFulfilled
  | clearError
deriving DecidableEq, Repr

/-- Reducer of the userSlice.ts slice (lines 400-506), case by case after
its `extraReducers`. Note that `signIn.rejected` and
`checkAuthStatus.rejected` set `isAuthenticated` to false but do NOT clear
`user`/`tokens`. -/
def userReducer (s : UserState) : ActionU → UserState
  | .signUpPending => { s with isLoading := true, error := none }
  | .signUpFulfilled => { s with isLoading := false, error := none }
  | .signUpRejected m =>
    { s with isLoading := false, error := some (jsOrStr m "Sign up failed") }
  | .confirmSignUpPending => { s with isLoading := true, error := none }
  | .confirmSignUpFulfilled => { s with isLoading := false, error := none }
  | .confirmSignUpRejected m =>
    { s with isLoading := false, error := some (jsOrStr m "Confirmation failed") }
  | .signInPending => { s with isLoading := true, error := none }
  | .signInFulfilled u t =>
    { s with isLoading := false, isAuthenticated := true, user := some u
             tokens := some t, error := none }
  | .signInRejected m =>
    { s with isLoading := false, isAuthenticated := false
             error := some (jsOrStr m "Sign in failed") }
  | .signOutPending => { s with isLoading := true }
  | .signOutFulfilled =>
    { s with isLoading := false, isAuthenticated := false, user := none
             tokens := none, error := none }
  | .signOutRejected m =>
    { s with isLoading := false, error := some (jsOrStr m "Sign out failed") }
  | .checkAuthPending => { s with isLoading := true }
  | .checkAuthFulfilled p =>
    match p with
    | some (u, t) =>
      { s with isLoading := false, isAuthenticated := true, user := some u
               tokens := some t, error := none }
    | none =>
      { s with isLoading := false, isAuthenticated := false, user := none
               tokens := none, error := none }
  | .checkAuthRejected m =>
    { s with isLoading := false, isAuthenticated := false
             error := some (jsOrStr m "Failed to check auth status") }
  | .getAuthTokenFulfilled => s
  | .clearError => { s with error := none }

/-- Concrete store for the near-expiry tick scenario: id token expires at
1030, thirty seconds after the tick at `now = 1000`; refresh token present. -/
def c1StoreNear : Store :=
  ⟨some "acc", some ⟨"h.p.s", some ⟨some 1030, "sub-1", some "alice", "a@x.com"⟩⟩,
   some "refresh-1", none⟩

/-- Concrete store for the far-expiry tick scenario: id token expires at
1600, six hundred seconds after the tick at `now = 1000`. -/
def c1StoreFar : Store :=
  ⟨some "acc", some ⟨"h.p.s", some ⟨some 1600, "sub-1", some "alice", "a@x.com"⟩⟩,
   some "refresh-1", none⟩

/-- Concrete store for the overlapping-tick scenario: near-expiry id token
and a refresh token, unchanged while the first renewal is in flight. -/
def c2Store : Store :=
  ⟨some "acc", some ⟨"h.p.s", some ⟨some 1030, "sub-1", some "alice", "a@x.com"⟩⟩,
   some "refresh-1", none⟩

/-- Concrete store with access and id credentials but no refresh token. -/
def c3Store : Store :=
  ⟨some "acc", some ⟨"h.p.s", some ⟨some 2000, "sub-1", some "alice", "a@x.com"⟩⟩,
   none, none⟩

/-- Second concrete store with no refresh token, for the amended witness. -/
def c3wStore : Store :=
  ⟨some "a2", some ⟨"h.p.s", some ⟨some 9, "s2", none, "b@x.com"⟩⟩, none, none⟩

/-- Concrete store holding all three credentials, due for renewal. -/
def c4Store : Store :=
  ⟨some "acc", some ⟨"h.p.s", some ⟨some 1030, "sub-1", some "alice", "a@x.com"⟩⟩,
   some "refresh-1", none⟩

/-- Concrete authenticated Redux state matching `c4Store`. -/
def c4AuthState : UserState :=
  ⟨true, false, some ⟨"alice", "a@x.com", "sub-1"⟩,
   some ⟨some "acc", some "h.p.s", some "refresh-1"⟩, none⟩

/-- Concrete store holding all three credentials, for the invalid-grant
renewal scenario. -/
def c5Store : Store :=
  ⟨some "acc", some ⟨"h.p.s", some ⟨some 1030, "sub-1", some "alice", "a@x.com"⟩⟩,
   some "refresh-1", none⟩

/-- Empty store at the start of an interactive sign-in. -/
def c6Store : Store := ⟨none, none, none, none⟩

/-- Concrete identity payload delivered by a fulfilled sign-in. -/
def c7User : UserInfo := ⟨"alice", "a@x.com", "sub-1"⟩

/-- Concrete token payload delivered by a fulfilled sign-in. -/
def c7Tokens : Tokens := ⟨some "acc", some "h.p.s", some "refresh-1"⟩

/-- Concrete store whose id-token payload carries `exp = 0`. -/
def c10Store : Store :=
  ⟨some "acc", some ⟨"h.p.s", some ⟨some 0, "sub-1", some "alice", "a@x.com"⟩⟩,
   some "refresh-1", none⟩

/-- Concrete store whose id-token payload lacks the `exp` claim. -/
def c10wStoreNoExp : Store :=
  ⟨some "acc", some ⟨"h.p.s", some ⟨none, "sub-1", some "alice", "a@x.com"⟩⟩,
   some "refresh-1", none⟩

/-- Concrete store whose id token expired five seconds before `now = 1000`. -/
def c10wStoreExpired : Store :=
  ⟨some "acc", some ⟨"h.p.s", some ⟨some 995, "sub-1", some "alice", "a@x.com"⟩⟩,
   some "refresh-1", none⟩

/-- Helper: `getD` on a list returns a member whenever the default is
itself a member. -/
theorem getD_char_mem (l : List Char) (d : Char) (hd : d ∈ l) (n : Nat) :
    l.getD n d ∈ l := by
  rcases Nat.lt_or_ge n l.length with h | h
  · rw [List.getD_eq_getElem l d h]
    exact List.getElem_mem h
  · rw [List.getD_eq_default l d h]
    exact hd

/-- Helper: every character produced by the base64 index lookup belongs to
the standard base64 alphabet. -/
theorem base64Char_mem (n : Nat) : base64Char n ∈ base64Chars :=
  getD_char_mem base64Chars 'A' (by decide) n

/-- Helper: every character of a padded base64 encoding is either in the
standard alphabet or the padding character. -/
theorem base64Core_mem : ∀ (bytes : List Nat) (c : Char),
    c ∈ base64Core bytes → c ∈ base64Chars ∨ c = '='
  | [], c, h => by simp [base64Core] at h
  | [b1], c, h => by
    simp only [base64Core, List.mem_cons, List.not_mem_nil, or_false] at h
    rcases h with h | h | h | h
    · exact Or.inl (h ▸ base64Char_mem _)
    · exact Or.inl (h ▸ base64Char_mem _)
    · exact Or.inr h
    · exact Or.inr h
  | [b1, b2], c, h => by
    simp only [base64Core, List.mem_cons, List.not_mem_nil, or_false] at h
    rcases h with h | h | h | h
    · exact Or.inl (h ▸ base64Char_mem _)
    · exact Or.inl (h ▸ base64Char_mem _)
    · exact Or.inl (h ▸ base64Char_mem _)
    · exact Or.inr h
  | b1 :: b2 :: b3 :: rest, c, h => by
    simp only [base64Core, List.mem_cons] at h
    rcases h with h | h | h | h | h
    · exact Or.inl (h ▸ base64Char_mem _)
    · exact Or.inl (h ▸ base64Char_mem _)
    · exact Or.inl (h ▸ base64Char_mem _)
    · exact Or.inl (h ▸ base64Char_mem _)
    · exact base64Core_mem rest c h

/-- Helper: the substitution step maps the standard alphabet into the
URL-safe alphabet. -/
theorem urlSafeChar_mem : ∀ c ∈ base64Chars, urlSafeChar c ∈ base64UrlAlphabet := by
  decide

/-- Helper: every character of a URL-safe encoding is in the URL-safe
alphabet. -/
theorem base64URLEncode_chars (bytes : List Nat) (c : Char)
    (h : c ∈ (base64URLEncode bytes).toList) : c ∈ base64UrlAlphabet := by
  change c ∈ ((base64Core bytes).map urlSafeChar).filter (fun x => x != '=') at h
  obtain ⟨hmem, hne⟩ := List.mem_filter.mp h
  obtain ⟨c0, hc0, hmap⟩ := List.mem_map.mp hmem
  rcases base64Core_mem bytes c0 hc0 with h0 | h0
  · exact hmap ▸ urlSafeChar_mem c0 h0
  · exfalso
    rw [← hmap, h0] at hne
    simp [urlSafeChar] at hne

/-- Helper: a URL-safe encoding contains no padding character. -/
theorem base64URLEncode_no_pad (bytes : List Nat) :
    '=' ∉ (base64URLEncode bytes).toList := by
  intro h
  change '=' ∈ ((base64Core bytes).map urlSafeChar).filter (fun x => x != '=') at h
  have := (List.mem_filter.mp h).2
  simp at this

/-- Helper: the generated verifier has the requested length and draws its
characters from the configured alphabet, whatever the random draws are. -/
theorem generateRandomString_spec (draws : Nat → Fin 62) :
    (generateRandomString draws 128).length = 128 ∧
    ∀ c ∈ (generateRandomString draws 128).toList, c ∈ possible.toList := by
  constructor
  · have h : (generateRandomString draws 128).length =
        ((List.range 128).map (fun i => possible.toList.getD (draws i) 'A')).length := rfl
    rw [h, List.length_map, List.length_range]
  · intro c hc
    change c ∈ (List.range 128).map (fun i => possible.toList.getD (draws i) 'A') at hc
    obtain ⟨i, _, hci⟩ := List.mem_map.mp hc
    rw [← hci]
    exact getD_char_mem _ 'A' (by decide) _

/-- Helper: a reducer step of userSlice.ts preserves the invariant that an
authenticated state has both `user` and `tokens` present. -/
theorem authInv_step (s : UserState) (a : ActionU)
    (h : s.isAuthenticated = true → s.user ≠ none ∧ s.tokens ≠ none) :
    (userReducer s a).isAuthenticated = true →
      (userReducer s a).user ≠ none ∧ (userReducer s a).tokens ≠ none := by
  cases a with
  | signInFulfilled u t => intro hA; exact ⟨by simp [userReducer], by simp [userReducer]⟩
  | checkAuthFulfilled p =>
    cases p with
    | some ut =>
      obtain ⟨u, t⟩ := ut
      intro hA
      exact ⟨by simp [userReducer], by simp [userReducer]⟩
    | none => intro hA; simp [userReducer] at hA
  | signInRejected m => intro hA; simp [userReducer] at hA
  | signOutFulfilled => intro hA; simp [userReducer] at hA
  | checkAuthRejected m => intro hA; simp [userReducer] at hA
  | _ => exact h

/-- Helper: the authenticated-implies-populated invariant holds along any
action sequence from a state satisfying it. -/
theorem authInv_reachable (acts : List ActionU) :
    ∀ s : UserState, (s.isAuthenticated = true → s.user ≠ none ∧ s.tokens ≠ none) →
      ((acts.foldl userReducer s).isAuthenticated = true →
       (acts.foldl userReducer s).user ≠ none ∧ (acts.foldl userReducer s).tokens ≠ none) := by
  induction acts with
  | nil => intro s h; exact h
  | cons a rest ih => intro s h; exact ih (userReducer s a) (authInv_step s a h)

/-- Claim C1 (confirmed): a scheduler tick on a stored credential set whose
id token expires 30 seconds after `now`, with a renewal credential present,
dispatches `refreshToken()` exactly once; with expiry 600 seconds after
`now` it dispatches zero times (proactive-renewal threshold 60 seconds). -/
theorem tick_renewal_threshold (store : Store) (now : Nat) {t : Tok} {p : Payload}
    (hid : store.idToken = some t) (hraw : t.raw ≠ "") (hp : t.payload = some p)
    (hrt : truthyStr store.refreshToken = true) :
    (p.exp = some (now + 30) → checkAndRefreshToken store now = 1) ∧
    (p.exp = some (now + 600) → checkAndRefreshToken store now = 0) := by
  constructor <;> intro he <;>
    · unfold checkAndRefreshToken
      rw [hid]
      simp only [if_neg hraw, hp, he, jsOr0, hrt]
      split
      all_goals first
        | (exfalso; omega)
        | simp

/-- Witness for C1 at a tick time of 1000: the near-expiry store dispatches
one renewal, the far-expiry store none. -/
theorem tick_renewal_threshold_witness :
    checkAndRefreshToken c1StoreNear 1000 = 1 ∧ checkAndRefreshToken c1StoreFar 1000 = 0 :=
  ⟨(tick_renewal_threshold c1StoreNear 1000 rfl (by decide) rfl (by decide)).1 (by decide),
   (tick_renewal_threshold c1StoreFar 1000 rfl (by decide) rfl (by decide)).2 (by decide)⟩

/-- Counterexample to claim C2: two ticks in immediate succession while the
renewal dispatched by the first has not resolved perform TWO network token
exchanges, not one — `checkAndRefreshToken` has no in-flight guard (and the
Redux state carries no `RenewalInFlight` state it could consult). -/
theorem tick_overlap_counterexample :
    ticksWhileUnresolved c2Store 1000 1000 = 2 ∧ (2 : Nat) ≠ 1 := by decide

/-- Claim C2 as amended: a second tick that fires while the renewal started
by the first tick is unresolved is NOT a no-op; whenever a tick dispatches
a renewal, an immediate second tick over the unchanged store dispatches
again, for a total of two network token exchanges. -/
theorem tick_overlap_amended (store : Store) (now : Nat)
    (h : checkAndRefreshToken store now = 1) :
    ticksWhileUnresolved store now now = 2 := by
  simp [ticksWhileUnresolved, h]

/-- Witness for the amended C2 at the concrete overlap store. -/
theorem tick_overlap_amended_witness : ticksWhileUnresolved c2Store 1000 1000 = 2 :=
  tick_overlap_amended c2Store 1000 (by decide)

/-- Counterexample to claim C3: with no refresh credential stored, the
refresh thunk does NOT leave the access/id keys as they were — its catch
block deletes them (they go from present to absent). -/
theorem renew_missing_refresh_counterexample :
    c3Store.accessToken = some "acc" ∧ c3Store.idToken ≠ none ∧
    (refreshTokenThunk c3Store (RefreshResp.networkError "unused")).1.accessToken = none ∧
    (refreshTokenThunk c3Store (RefreshResp.networkError "unused")).1.idToken = none ∧
    (refreshTokenThunk c3Store (RefreshResp.networkError "unused")).2 =
      ThunkOutcome.rejected "No refresh token available" := by decide

/-- Claim C3 as amended: when no renewal credential is stored, `renew()`
rejects with the missing-refresh-token error and DELETES all three stored
credential keys (rather than leaving access/id untouched), and the caller
transitions to an unauthenticated state with `user`/`tokens` cleared. -/
theorem renew_missing_refresh_amended (store : Store) (resp : RefreshResp)
    (s : UserState) (m : Option String)
    (h : truthyStr store.refreshToken = false) :
    refreshTokenThunk store resp =
      (clearAllTokens store, ThunkOutcome.rejected "No refresh token available") ∧
    (clearAllTokens store).accessToken = none ∧
    (clearAllTokens store).idToken = none ∧
    (clearAllTokens store).refreshToken = none ∧
    (userReducer4 s (Action4.refreshRejected m)).isAuthenticated = false ∧
    (userReducer4 s (Action4.refreshRejected m)).user = none ∧
    (userReducer4 s (Action4.refreshRejected m)).tokens = none := by
  refine ⟨?_, rfl, rfl, rfl, rfl, rfl, rfl⟩
  simp [refreshTokenThunk, h]

/-- Witness for the amended C3 at a concrete store without refresh token. -/
theorem renew_missing_refresh_amended_witness :
    refreshTokenThunk c3wStore (RefreshResp.httpError "e") =
      (clearAllTokens c3wStore, ThunkOutcome.rejected "No refresh token available") ∧
    (userReducer4 initialState (Action4.refreshRejected none)).isAuthenticated = false :=
  ⟨(renew_missing_refresh_amended c3wStore (RefreshResp.httpError "e") initialState none
      (by decide)).1,
   (renew_missing_refresh_amended c3wStore (RefreshResp.httpError "e") initialState none
      (by decide)).2.2.2.2.1⟩

/-- Counterexample to claim C4: a transient network failure during renewal
does NOT retain the session — all three stored credentials are deleted and
the rejected reducer moves a previously authenticated state to an
unauthenticated one with `user`/`tokens` cleared, so the next tick finds no
refresh token to retry with. -/
theorem renew_network_failure_counterexample :
    c4AuthState.isAuthenticated = true ∧
    (refreshTokenThunk c4Store (RefreshResp.networkError "Network request failed")).1.accessToken = none ∧
    (refreshTokenThunk c4Store (RefreshResp.networkError "Network request failed")).1.idToken = none ∧
    (refreshTokenThunk c4Store (RefreshResp.networkError "Network request failed")).1.refreshToken = none ∧
    (userReducer4 c4AuthState
      (Action4.refreshRejected (some "Network request failed"))).isAuthenticated = false ∧
    (userReducer4 c4AuthState
      (Action4.refreshRejected (some "Network request failed"))).user = none ∧
    (userReducer4 c4AuthState
      (Action4.refreshRejected (some "Network request failed"))).tokens = none := by
  decide

/-- Claim C4 as amended: a renewal attempt that fails with a transient
network error is handled exactly like a terminal failure — the catch block
deletes all three stored credentials, the thunk rejects with the network
message, and the rejected reducer leaves an unauthenticated state with
`user` and `tokens` cleared (no retention of the prior session). -/
theorem renew_network_failure_amended (store : Store) (msg : String)
    (s : UserState) (m : Option String)
    (h : truthyStr store.refreshToken = true) :
    refreshTokenThunk store (RefreshResp.networkError msg) =
      (clearAllTokens store, ThunkOutcome.rejected msg) ∧
    (clearAllTokens store).accessToken = none ∧
    (clearAllTokens store).idToken = none ∧
    (clearAllTokens store).refreshToken = none ∧
    (userReducer4 s (Action4.refreshRejected m)).isAuthenticated = false ∧
    (userReducer4 s (Action4.refreshRejected m)).user = none ∧
    (userReducer4 s (Action4.refreshRejected m)).tokens = none := by
  refine ⟨?_, rfl, rfl, rfl, rfl, rfl, rfl⟩
  simp [refreshTokenThunk, h]

/-- Witness for the amended C4 at the concrete authenticated store. -/
theorem renew_network_failure_amended_witness :
    refreshTokenThunk c4Store (RefreshResp.networkError "timeout") =
      (clearAllTokens c4Store, ThunkOutcome.rejected "timeout") ∧
    (userReducer4 c4AuthState (Action4.refreshRejected (some "timeout"))).user = none :=
  ⟨(renew_network_failure_amended c4Store "timeout" c4AuthState (some "timeout") (by decide)).1,
   (renew_network_failure_amended c4Store "timeout" c4AuthState (some "timeout")
      (by decide)).2.2.2.2.2.1⟩

/-- Claim C5 (confirmed): when the token endpoint answers the refresh grant
with an error (such as invalid_grant for an expired or revoked refresh
credential), all three stored credential keys are deleted and the session
state becomes unauthenticated with `user`/`tokens` cleared. -/
theorem renew_invalid_grant (store : Store) (msg : String)
    (s : UserState) (m : Option String)
    (h : truthyStr store.refreshToken = true) :
    refreshTokenThunk store (RefreshResp.httpError msg) =
      (clearAllTokens store, ThunkOutcome.rejected msg) ∧
    (clearAllTokens store).accessToken = none ∧
    (clearAllTokens store).idToken = none ∧
    (clearAllTokens store).refreshToken = none ∧
    (userReducer4 s (Action4.refreshRejected m)).isAuthenticated = false ∧
    (userReducer4 s (Action4.refreshRejected m)).user = none ∧
    (userReducer4 s (Action4.refreshRejected m)).tokens = none := by
  refine ⟨?_, rfl, rfl, rfl, rfl, rfl, rfl⟩
  simp [refreshTokenThunk, h]

/-- Witness for C5 at a concrete store and error type. -/
theorem renew_invalid_grant_witness :
    refreshTokenThunk c5Store (RefreshResp.httpError "NotAuthorizedException") =
      (clearAllTokens c5Store, ThunkOutcome.rejected "NotAuthorizedException") ∧
    (userReducer4 initialState
      (Action4.refreshRejected (some "NotAuthorizedException"))).isAuthenticated = false :=
  ⟨(renew_invalid_grant c5Store "NotAuthorizedException" initialState
      (some "NotAuthorizedException") (by decide)).1,
   (renew_invalid_grant c5Store "NotAuthorizedException" initialState
      (some "NotAuthorizedException") (by decide)).2.2.2.2.1⟩

/-- Counterexample to claim C6: when the interactive sign-in is cancelled,
the stored code verifier (Pending Authorization Context) is NOT deleted —
it remains in the store — although the thunk rejects with the cancellation
message and writes no credentials. -/
theorem signin_cancel_counterexample :
    (signInThunk c6Store "verifier-1" BrowserResult.cancelled
      (TokenResp.networkError "unused")).1.codeVerifier = some "verifier-1" ∧
    (signInThunk c6Store "verifier-1" BrowserResult.cancelled
      (TokenResp.networkError "unused")).2 =
        ThunkOutcome.rejected "Authentication cancelled or failed" ∧
    (signInThunk c6Store "verifier-1" BrowserResult.cancelled
      (TokenResp.networkError "unused")).1.accessToken = none ∧
    (signInThunk c6Store "verifier-1" BrowserResult.cancelled
      (TokenResp.networkError "unused")).1.idToken = none ∧
    (signInThunk c6Store "verifier-1" BrowserResult.cancelled
      (TokenResp.networkError "unused")).1.refreshToken = none := by
  decide

/-- Claim C6 as amended: on cancellation the sign-in rejects with the
cancellation message, no access/id/refresh credentials are written, and the
reducer leaves `isAuthenticated` false; but the stored code verifier is NOT
discarded — it is written at the start of the attempt and remains in the
store (it is deleted only by `signOut` or overwritten by a later attempt). -/
theorem signin_cancel_amended (store : Store) (v : String) (resp : TokenResp)
    (s : UserState) (m : Option String) :
    signInThunk store v BrowserResult.cancelled resp =
      ({ store with codeVerifier := some v },
       ThunkOutcome.rejected "Authentication cancelled or failed") ∧
    ({ store with codeVerifier := some v }).accessToken = store.accessToken ∧
    ({ store with codeVerifier := some v }).idToken = store.idToken ∧
    ({ store with codeVerifier := some v }).refreshToken = store.refreshToken ∧
    (userReducer s (ActionU.signInRejected m)).isAuthenticated = false ∧
    (userReducer s (ActionU.signInRejected m)).user = s.user ∧
    (userReducer s (ActionU.signInRejected m)).tokens = s.tokens :=
  ⟨rfl, rfl, rfl, rfl, rfl, rfl, rfl⟩

/-- Counterexample to claim C7: the reachable state after a fulfilled
sign-in followed by a rejected sign-in has `isAuthenticated = false` while
`user` and `tokens` still hold the stale values — presence of the fields
does not coincide with being authenticated. -/
theorem session_fields_counterexample :
    (([ActionU.signInFulfilled c7User c7Tokens, ActionU.signInRejected none]).foldl
        userReducer initialState).isAuthenticated = false ∧
    (([ActionU.signInFulfilled c7User c7Tokens, ActionU.signInRejected none]).foldl
        userReducer initialState).user = some c7User ∧
    (([ActionU.signInFulfilled c7User c7Tokens, ActionU.signInRejected none]).foldl
        userReducer initialState).tokens = some c7Tokens := by
  decide

/-- Claim C7 as amended: every reducer transition either leaves `user` and
`tokens` untouched, clears both, or replaces both together (no partial
update), and in every reachable state `isAuthenticated = true` implies both
fields are present; the converse direction of the original claim fails,
since the rejected sign-in and rejected status-check transitions clear
`isAuthenticated` without clearing previously-set `user`/`tokens`. -/
theorem session_fields_amended :
    (∀ (s : UserState) (a : ActionU),
      ((userReducer s a).user = s.user ∧ (userReducer s a).tokens = s.tokens) ∨
      ((userReducer s a).user = none ∧ (userReducer s a).tokens = none) ∨
      (∃ u t, (userReducer s a).user = some u ∧ (userReducer s a).tokens = some t)) ∧
    (∀ acts : List ActionU,
      (acts.foldl userReducer initialState).isAuthenticated = true →
      (acts.foldl userReducer initialState).user ≠ none ∧
      (acts.foldl userReducer initialState).tokens ≠ none) := by
  constructor
  · intro s a
    cases a with
    | signInFulfilled u t => exact Or.inr (Or.inr ⟨u, t, rfl, rfl⟩)
    | checkAuthFulfilled p =>
      cases p with
      | some ut => obtain ⟨u, t⟩ := ut; exact Or.inr (Or.inr ⟨u, t, rfl, rfl⟩)
      | none => exact Or.inr (Or.inl ⟨rfl, rfl⟩)
    | signOutFulfilled => exact Or.inr (Or.inl ⟨rfl, rfl⟩)
    | _ => exact Or.inl ⟨rfl, rfl⟩
  · intro acts
    exact authInv_reachable acts initialState (by intro hA; exact absurd hA (by decide))

/-- Witness for the amended C7: an authenticated reachable state indeed has
both fields present. -/
theorem session_fields_amended_witness :
    (([ActionU.signInFulfilled c7User c7Tokens]).foldl userReducer initialState).user ≠ none ∧
    (([ActionU.signInFulfilled c7User c7Tokens]).foldl userReducer initialState).tokens ≠ none :=
  session_fields_amended.2 [ActionU.signInFulfilled c7User c7Tokens] (by decide)

/-- Claim C8 (confirmed): the verifier-to-challenge derivation is a
deterministic function whose output uses only the URL-safe base64 alphabet
with the padding stripped, and every generated verifier has length 128 and
draws only characters of the configured unreserved alphabet, whatever the
random draws are. -/
theorem pkce_generator_spec :
    (∀ v1 v2 : String, v1 = v2 → generateCodeChallenge v1 = generateCodeChallenge v2) ∧
    (∀ (v : String) (c : Char), c ∈ (generateCodeChallenge v).toList → c ∈ base64UrlAlphabet) ∧
    (∀ v : String, '=' ∉ (generateCodeChallenge v).toList) ∧
    (∀ draws : Nat → Fin 62,
      (generateRandomString draws 128).length = 128 ∧
      ∀ c ∈ (generateRandomString draws 128).toList, c ∈ possible.toList) := by
  refine ⟨fun v1 v2 h => h ▸ rfl, fun v c h => ?_, fun v => ?_, fun draws => ?_⟩
  · exact base64URLEncode_chars _ c h
  · exact base64URLEncode_no_pad _
  · exact generateRandomString_spec draws

/-- Witness for C8 at the concrete verifier string "a" and an all-zero
draw sequence. -/
theorem pkce_generator_spec_witness :
    generateCodeChallenge "a" = generateCodeChallenge "a" ∧
    'y' ∈ base64UrlAlphabet ∧
    '=' ∉ (generateCodeChallenge "a").toList ∧
    'A' ∈ possible.toList :=
  ⟨pkce_generator_spec.1 "a" "a" rfl,
   pkce_generator_spec.2.1 "a" 'y' (by decide),
   pkce_generator_spec.2.2.1 "a",
   (pkce_generator_spec.2.2.2 (fun _ => ⟨0, by decide⟩)).2 'A' (by decide)⟩

/-- Claim C9 (confirmed): whenever no (truthy) renewal credential is in
storage, a scheduler tick dispatches zero renewals — the renewal network
call requires both the sub-threshold remaining lifetime and a successfully
read refresh credential, so a tick alone never produces the
missing-refresh-token sign-out. -/
theorem tick_requires_refresh_token (store : Store) (now : Nat)
    (h : truthyStr store.refreshToken = false) :
    checkAndRefreshToken store now = 0 := by
  obtain ⟨acc, idt, rt, cv⟩ := store
  unfold checkAndRefreshToken
  cases idt with
  | none => rfl
  | some t =>
    by_cases hraw : t.raw = ""
    · simp [hraw]
    · simp only [if_neg hraw]
      cases t.payload with
      | none => rfl
      | some p =>
        simp only [] at h ⊢
        split
        · simp [h]
        · rfl

/-- Witness for C9 at a near-expiry store with no refresh token. -/
theorem tick_requires_refresh_token_witness :
    checkAndRefreshToken c3Store 1990 = 0 :=
  tick_requires_refresh_token c3Store 1990 (by decide)

/-- Counterexample to claim C10: a stored id token whose payload has
`exp = 0` — strictly below the current time 100 — is nonetheless restored
as an authenticated session with nothing deleted, because the source guards
the expiry comparison with the truthiness of `exp` and `0` is falsy. -/
theorem startup_expiry_counterexample :
    (0 : Nat) < 100 ∧
    (checkAuthStatusThunk c10Store 100).1 = c10Store ∧
    (checkAuthStatusThunk c10Store 100).2 =
      ThunkOutcome.fulfilled (some (⟨"alice", "a@x.com", "sub-1"⟩,
        ⟨some "acc", some "h.p.s", some "refresh-1"⟩)) ∧
    (userReducer initialState (ActionU.checkAuthFulfilled (some (⟨"alice", "a@x.com", "sub-1"⟩,
        ⟨some "acc", some "h.p.s", some "refresh-1"⟩)))).isAuthenticated = true := by
  decide

/-- Claim C10 as amended: at startup a stored id token whose payload lacks
`exp` — or carries the falsy value `exp = 0` — is treated as not expired
and the session is restored as authenticated from it; a payload whose `exp`
is present, nonzero and strictly below the current time yields no restored
session (the status check fulfils null, the rejected-restoration reducer
clears the state) and the stored access and id credentials are deleted. -/
theorem startup_expiry_amended (store : Store) (now : Nat) {t : Tok} {p : Payload}
    (hid : store.idToken = some t) (hraw : t.raw ≠ "") (hp : t.payload = some p) :
    (p.exp = none →
      checkAuthStatusThunk store now = (store, ThunkOutcome.fulfilled (some (userFromPayload p,
        ⟨store.accessToken, some t.raw, store.refreshToken⟩))) ∧
      (∀ (s : UserState) (pay : UserInfo × Tokens),
        (userReducer s (ActionU.checkAuthFulfilled (some pay))).isAuthenticated = true)) ∧
    (p.exp = some 0 →
      checkAuthStatusThunk store now = (store, ThunkOutcome.fulfilled (some (userFromPayload p,
        ⟨store.accessToken, some t.raw, store.refreshToken⟩)))) ∧
    (∀ e : Nat, p.exp = some e → e ≠ 0 → e < now →
      (checkAuthStatusThunk store now).1.idToken = none ∧
      (checkAuthStatusThunk store now).1.accessToken = none ∧
      (checkAuthStatusThunk store now).2 = ThunkOutcome.fulfilled none ∧
      (∀ s : UserState,
        (userReducer s (ActionU.checkAuthFulfilled none)).isAuthenticated = false ∧
        (userReducer s (ActionU.checkAuthFulfilled none)).user = none ∧
        (userReducer s (ActionU.checkAuthFulfilled none)).tokens = none)) := by
  refine ⟨fun he => ?_, fun he => ?_, fun e he hne hlt => ?_⟩
  · refine ⟨?_, fun s pay => rfl⟩
    unfold checkAuthStatusThunk
    rw [hid]
    simp [if_neg hraw, hp, he]
  · unfold checkAuthStatusThunk
    rw [hid]
    simp [if_neg hraw, hp, he]
  · unfold checkAuthStatusThunk
    rw [hid]
    simp only [if_neg hraw, hp, he]
    have hexp : (if e = 0 then false else decide (e < now)) = true := by
      simp [hne, hlt]
    rw [hexp]
    simp only [if_true]
    split
    · exact ⟨rfl, rfl, rfl, fun s => ⟨rfl, rfl, rfl⟩⟩
    · exact ⟨rfl, rfl, rfl, fun s => ⟨rfl, rfl, rfl⟩⟩

/-- Witness for the amended C10: the store without an `exp` claim is
restored untouched; the store expired five seconds before now has its
credentials deleted and restores nothing. -/
theorem startup_expiry_amended_witness :
    checkAuthStatusThunk c10wStoreNoExp 1000 = (c10wStoreNoExp,
      ThunkOutcome.fulfilled (some (⟨"alice", "a@x.com", "sub-1"⟩,
        ⟨some "acc", some "h.p.s", some "refresh-1"⟩))) ∧
    (checkAuthStatusThunk c10wStoreExpired 1000).1.idToken = none ∧
    (checkAuthStatusThunk c10wStoreExpired 1000).2 = ThunkOutcome.fulfilled none :=
  ⟨((startup_expiry_amended c10wStoreNoExp 1000 rfl (by decide) rfl).1 rfl).1,
   ((startup_expiry_amended c10wStoreExpired 1000 rfl (by decide) rfl).2.2 995 rfl
      (by decide) (by decide)).1,
   ((startup_expiry_amended c10wStoreExpired 1000 rfl (by decide) rfl).2.2 995 rfl
      (by decide) (by decide)).2.2.1⟩
